import Mathlib

/-!
Shallow embedding of src/docker/showui/server.py (ShowUI-2B Gradio server).

The file models, from the source:
  - the module constants SYSTEM_PROMPT, MIN_PIXELS, MAX_PIXELS;
  - the message structure assembled inside predict;
  - the inference pipeline of predict (chat templating, encoding, a single
    generate call with max_new_tokens = 128, per-batch-element prefix
    trimming, batch decoding) with the external library calls abstracted
    as fields of a ModelEnv record, staged exactly as the local variables
    of predict;
  - the output parsing step (ast.literal_eval followed by the
    isinstance-list-and-length-2 check and f-string formatting, with
    ValueError/SyntaxError caught and falling back to the raw text).

Python values produced by ast.literal_eval are modelled by PyVal. Floats
are modelled as exact decimals m * 10 ^ e with the mantissa normalized
(trailing decimal zeros stripped), which matches CPython float identity
and repr on decimals of moderate size rendered in fixed notation; the
model does not reproduce IEEE-754 rounding of extremely long mantissas
nor the switch to exponent notation outside [1e-4, 1e16). The literal
parser covers decimal int and float literals (with exponent part),
single- and double-quoted strings without escape processing, True, False,
None, lists, tuples, parenthesized values, unary sign on numeric
literals, and arbitrary nesting; hex/octal/binary integers, underscores
in numbers, and dict/set/bytes/complex literals are outside the model
and parse to Option.none.
-/

/-- Python value as produced by ast.literal_eval, restricted to the
constructors the model covers. A float is m * 10 ^ e, normalized. -/
inductive PyVal where
  | int : Int → PyVal
  | float : Int → Int → PyVal
  | str : String → PyVal
  | bool : Bool → PyVal
  | none : PyVal
  | list : List PyVal → PyVal
  | tuple : List PyVal → PyVal

/-- Decimal rendering of an integer, as Python str does. -/
def intRepr (n : Int) : String :=
  if n < 0 then "-" ++ Nat.repr n.natAbs else Nat.repr n.natAbs

/-- Rendering of the float m * 10 ^ e in fixed notation with at least one
fractional digit, as Python repr does for floats in the fixed-notation
range (assumes the mantissa is normalized). -/
def floatRepr (m : Int) (e : Int) : String :=
  let n := m.natAbs
  let core :=
    if 0 ≤ e then
      Nat.repr n ++ String.mk (List.replicate e.toNat '0') ++ ".0"
    else
      let k := (-e).toNat
      let s := Nat.repr n
      if s.length ≤ k then
        "0." ++ String.mk (List.replicate (k - s.length) '0') ++ s
      else
        String.mk (s.toList.take (s.length - k)) ++ "." ++
          String.mk (s.toList.drop (s.length - k))
  if m < 0 then "-" ++ core else core

mutual

/-- Python repr of a value (strings get quotes), as used for elements of
a container. String escaping is not modelled. -/
def pyRepr : PyVal → String
  | PyVal.int n => intRepr n
  | PyVal.float m e => floatRepr m e
  | PyVal.str s => "\x27" ++ s ++ "\x27"
  | PyVal.bool b => if b then "True" else "False"
  | PyVal.none => "None"
  | PyVal.list xs => "[" ++ pyReprList xs ++ "]"
  | PyVal.tuple [] => "()"
  | PyVal.tuple [x] => "(" ++ pyRepr x ++ ",)"
  | PyVal.tuple (x :: y :: xs) => "(" ++ pyReprList (x :: y :: xs) ++ ")"

/-- Comma-separated reprs of a list of values. -/
def pyReprList : List PyVal → String
  | [] => ""
  | [x] => pyRepr x
  | x :: y :: xs => pyRepr x ++ ", " ++ pyReprList (y :: xs)

end

/-- Python str of a value, as applied by an f-string interpolation: a
string is taken verbatim, everything else falls back to repr. -/
def pyStr : PyVal → String
  | PyVal.str s => s
  | v => pyRepr v

/-- Whitespace as skipped between Python tokens. -/
def isWsChar (c : Char) : Bool :=
  c == ' ' || c == '\t' || c == '\n' || c == '\r'

/-- Drop leading whitespace. -/
def skipWs (cs : List Char) : List Char :=
  cs.dropWhile isWsChar

/-- Value of a string of decimal digits. -/
def digitsToNat (ds : List Char) : Nat :=
  ds.foldl (fun a c => 10 * a + (c.toNat - 48)) 0

/-- Strip factors of 10 from the mantissa, moving them into the
exponent. The first argument is fuel bounding the iteration count. -/
def normFloatNat : Nat → Nat → Int → Nat × Int
  | 0, m, e => (m, e)
  | Nat.succ f, m, e =>
    if m ≠ 0 ∧ m % 10 = 0 then normFloatNat f (m / 10) (e + 1) else (m, e)

/-- Build a normalized float value from a raw mantissa and exponent. -/
def mkFloat (m e : Int) : PyVal :=
  if m = 0 then PyVal.float 0 0
  else
    let p := normFloatNat m.natAbs m.natAbs e
    if m < 0 then PyVal.float (-(p.1 : Int)) p.2 else PyVal.float (p.1 : Int) p.2

/-- Parse the exponent part of a float literal, after the e marker. -/
def parseExp (cs : List Char) : Option (Int × List Char) :=
  match cs with
  | [] => Option.none
  | c :: r =>
    if c == '+' || c == '-' then
      let ds := r.takeWhile Char.isDigit
      let r2 := r.dropWhile Char.isDigit
      if ds.isEmpty then Option.none
      else if c == '-' then Option.some (-(digitsToNat ds : Int), r2)
      else Option.some ((digitsToNat ds : Int), r2)
    else
      let ds := (c :: r).takeWhile Char.isDigit
      let r2 := (c :: r).dropWhile Char.isDigit
      if ds.isEmpty then Option.none
      else Option.some ((digitsToNat ds : Int), r2)

/-- Parse a decimal int or float literal (no sign). Mirrors the Python
tokenizer on decimal literals: a decimal integer may not have a leading
zero unless it is all zeros; a float has a dot or an exponent part. -/
def parseNumber (cs : List Char) : Option (PyVal × List Char) :=
  let ds := cs.takeWhile Char.isDigit
  let r1 := cs.dropWhile Char.isDigit
  match r1 with
  | '.' :: r2 =>
    let fs := r2.takeWhile Char.isDigit
    let r3 := r2.dropWhile Char.isDigit
    if ds.isEmpty && fs.isEmpty then Option.none
    else
      let m : Int := (digitsToNat (ds ++ fs) : Int)
      let e : Int := -(fs.length : Int)
      match r3 with
      | c :: r4 =>
        if c == 'e' || c == 'E' then
          match parseExp r4 with
          | Option.some (k, r5) => Option.some (mkFloat m (e + k), r5)
          | Option.none => Option.none
        else Option.some (mkFloat m e, c :: r4)
      | [] => Option.some (mkFloat m e, [])
  | c :: r2 =>
    if ds.isEmpty then Option.none
    else if c == 'e' || c == 'E' then
      match parseExp r2 with
      | Option.some (k, r5) => Option.some (mkFloat (digitsToNat ds) k, r5)
      | Option.none => Option.none
    else if ds.headD '1' == '0' && ds.any (fun d => d != '0') then Option.none
    else Option.some (PyVal.int (digitsToNat ds), c :: r2)
  | [] =>
    if ds.isEmpty then Option.none
    else if ds.headD '1' == '0' && ds.any (fun d => d != '0') then Option.none
    else Option.some (PyVal.int (digitsToNat ds), [])

/-- Scan the body of a quoted string until the closing quote. Escape
sequences are not interpreted. -/
def parseStrChars (q : Char) : List Char → Option (List Char × List Char)
  | [] => Option.none
  | c :: r =>
    if c == q then Option.some ([], r)
    else
      match parseStrChars q r with
      | Option.some (acc, rest) => Option.some (c :: acc, rest)
      | Option.none => Option.none

/-- Match a keyword tail and require that no identifier character
follows, as the Python tokenizer does. -/
def matchKwRest (kw : List Char) (cs : List Char) : Option (List Char) :=
  if cs.take kw.length = kw then
    let r := cs.drop kw.length
    match r with
    | [] => Option.some r
    | d :: _ => if d.isAlphanum || d == '_' then Option.none else Option.some r
  else Option.none

/-- The single-quote character. -/
def squoteChar : Char := Char.ofNat 39

/-- Negate a numeric value, as the unary minus of ast.literal_eval. -/
def pyNeg : PyVal → PyVal
  | PyVal.int n => PyVal.int (-n)
  | PyVal.float m e => PyVal.float (-m) e
  | v => v

mutual

/-- Parse one Python literal value from the character stream, fuel-bounded.
Models the expression grammar accepted by ast.literal_eval restricted to
the constructors of PyVal: numbers with optional unary sign, quoted
strings, True / False / None, lists, tuples, and parenthesized values. -/
def parseVal : Nat → List Char → Option (PyVal × List Char)
  | 0, _ => Option.none
  | Nat.succ fuel, cs0 =>
    match skipWs cs0 with
    | [] => Option.none
    | c :: rest =>
      if c == '[' then
        match skipWs rest with
        | [] => Option.none
        | d :: r =>
          if d == ']' then Option.some (PyVal.list [], r)
          else
            match parseVal fuel (d :: r) with
            | Option.some (v, r2) =>
              match parseMoreElems fuel ']' r2 with
              | Option.some (vs, r3) => Option.some (PyVal.list (v :: vs), r3)
              | Option.none => Option.none
            | Option.none => Option.none
      else if c == '(' then
        match skipWs rest with
        | [] => Option.none
        | d :: r =>
          if d == ')' then Option.some (PyVal.tuple [], r)
          else
            match parseVal fuel (d :: r) with
            | Option.some (v, r2) =>
              match skipWs r2 with
              | [] => Option.none
              | d2 :: r3 =>
                if d2 == ')' then Option.some (v, r3)
                else if d2 == ',' then
                  match skipWs r3 with
                  | [] => Option.none
                  | d3 :: r4 =>
                    if d3 == ')' then Option.some (PyVal.tuple [v], r4)
                    else
                      match parseVal fuel (d3 :: r4) with
                      | Option.some (w, r5) =>
                        match parseMoreElems fuel ')' r5 with
                        | Option.some (ws, r6) =>
                          Option.some (PyVal.tuple (v :: w :: ws), r6)
                        | Option.none => Option.none
                      | Option.none => Option.none
                else Option.none
            | Option.none => Option.none
      else if c == '"' then
        match parseStrChars '"' rest with
        | Option.some (acc, r) => Option.some (PyVal.str (String.mk acc), r)
        | Option.none => Option.none
      else if c == squoteChar then
        match parseStrChars squoteChar rest with
        | Option.some (acc, r) => Option.some (PyVal.str (String.mk acc), r)
        | Option.none => Option.none
      else if c == '+' then
        match parseNumber (skipWs rest) with
        | Option.some (v, r) => Option.some (v, r)
        | Option.none => Option.none
      else if c == '-' then
        match parseNumber (skipWs rest) with
        | Option.some (v, r) => Option.some (pyNeg v, r)
        | Option.none => Option.none
      else if c == 'T' then
        match matchKwRest ['r', 'u', 'e'] rest with
        | Option.some r => Option.some (PyVal.bool true, r)
        | Option.none => Option.none
      else if c == 'F' then
        match matchKwRest ['a', 'l', 's', 'e'] rest with
        | Option.some r => Option.some (PyVal.bool false, r)
        | Option.none => Option.none
      else if c == 'N' then
        match matchKwRest ['o', 'n', 'e'] rest with
        | Option.some r => Option.some (PyVal.none, r)
        | Option.none => Option.none
      else parseNumber (c :: rest)

/-- After one container element: expect the closing character, or a comma
followed by either the closing character (trailing comma) or another
element. -/
def parseMoreElems : Nat → Char → List Char → Option (List PyVal × List Char)
  | 0, _, _ => Option.none
  | Nat.succ fuel, close, cs =>
    match skipWs cs with
    | [] => Option.none
    | c :: r =>
      if c == close then Option.some ([], r)
      else if c == ',' then
        match skipWs r with
        | [] => Option.none
        | d :: r2 =>
          if d == close then Option.some ([], r2)
          else
            match parseVal fuel (d :: r2) with
            | Option.some (v, r3) =>
              match parseMoreElems fuel close r3 with
              | Option.some (vs, r4) => Option.some (v :: vs, r4)
              | Option.none => Option.none
            | Option.none => Option.none
      else Option.none

end

/-- Model of ast.literal_eval as called in predict: parse the whole text
as one literal value; any failure the Python code would catch as
ValueError or SyntaxError is Option.none. -/
def literal_eval (s : String) : Option PyVal :=
  let cs := s.toList
  match parseVal (2 * cs.length + 2) cs with
  | Option.some (v, rest) =>
    if (skipWs rest).isEmpty then Option.some v else Option.none
  | Option.none => Option.none

/-- Lines 76 to 83 of server.py: try ast.literal_eval on the decoded
text; on a list of length exactly 2, return the f-string of the two
elements; on any other value or any caught parse error, return the
decoded text unchanged. -/
def parse_and_format (t : String) : String :=
  match literal_eval t with
  | Option.some (PyVal.list (a :: b :: List.nil)) => pyStr a ++ ", " ++ pyStr b
  | _ => t

/-- The fixed instruction text of server.py. -/
def SYSTEM_PROMPT : String :=
  "Based on the screenshot of the page, I give a text description and you " ++
  "give its corresponding location. The coordinate represents a clickable " ++
  "location [x, y] for an element, which is a relative coordinate on the " ++
  "screenshot, scaled from 0 to 1."

/-- Lower pixel-area bound passed to the processor, line 17 of server.py. -/
def MIN_PIXELS : Nat := 256 * 28 * 28

/-- Upper pixel-area bound passed to the processor, line 18 of server.py. -/
def MAX_PIXELS : Nat := 1344 * 28 * 28

/-- One entry of the content list of a message: a text part, or an image
part annotated with its pixel-area bounds. -/
inductive ContentPart (Image : Type) where
  | text : String → ContentPart Image
  | image : Image → Nat → Nat → ContentPart Image

/-- One chat message: a role and a content list. -/
structure Message (Image : Type) where
  role : String
  content : List (ContentPart Image)

/-- The messages list assembled at the top of predict: a single user
message holding the system prompt, the image with its pixel bounds, and
the query. -/
def make_messages {Image : Type} (image : Image) (query : String) :
    List (Message Image) :=
  [{ role := "user",
     content := [ContentPart.text SYSTEM_PROMPT,
                 ContentPart.image image MIN_PIXELS MAX_PIXELS,
                 ContentPart.text query] }]

/-- The external library calls predict delegates to, abstracted: chat
templating, vision extraction, tokenization into a batch of id
sequences, generation with a new-token budget, and batch decoding. -/
structure ModelEnv (Image Token : Type) where
  apply_chat_template : List (Message Image) → String
  process_vision_info : List (Message Image) → List Image × List Image
  encode : List String → List Image → List Image → List (List Token)
  generate : List (List Token) → Nat → List (List Token)
  batch_decode : List (List Token) → List String

/-- The local text of predict: the chat template applied to the
assembled messages. -/
def assembled_text {Image Token : Type} (env : ModelEnv Image Token)
    (image : Image) (query : String) : String :=
  env.apply_chat_template (make_messages image query)

/-- The image and video inputs extracted from the messages. -/
def vision_inputs {Image Token : Type} (env : ModelEnv Image Token)
    (image : Image) (query : String) : List Image × List Image :=
  env.process_vision_info (make_messages image query)

/-- The input id batch produced by the processor call of predict. -/
def input_ids {Image Token : Type} (env : ModelEnv Image Token)
    (image : Image) (query : String) : List (List Token) :=
  env.encode [assembled_text env image query]
    (vision_inputs env image query).1 (vision_inputs env image query).2

/-- The generate call of predict, with max_new_tokens = 128 as on line
65 of server.py. -/
def generated_ids {Image Token : Type} (env : ModelEnv Image Token)
    (image : Image) (query : String) : List (List Token) :=
  env.generate (input_ids env image query) 128

/-- Lines 67 to 70 of server.py: per batch element, drop the echoed
prompt of the length of the corresponding input id sequence. -/
def generated_ids_trimmed {Image Token : Type} (env : ModelEnv Image Token)
    (image : Image) (query : String) : List (List Token) :=
  List.zipWith (fun in_ids out_ids => out_ids.drop in_ids.length)
    (input_ids env image query) (generated_ids env image query)

/-- The decoded text of the first batch element, lines 71 to 73. -/
def output_text {Image Token : Type} (env : ModelEnv Image Token)
    (image : Image) (query : String) : String :=
  (env.batch_decode (generated_ids_trimmed env image query)).getD 0 ""

/-- The predict handler of server.py: the full pipeline followed by the
parse-and-format step. -/
def predict {Image Token : Type} (env : ModelEnv Image Token)
    (image : Image) (query : String) : String :=
  parse_and_format (output_text env image query)

/-- The acceptance shape check of line 78: isinstance list and length 2. -/
def is_two_elem_list : PyVal → Bool
  | PyVal.list (_ :: _ :: List.nil) => true
  | _ => false

/-- Numeric values: Python int or float literals. -/
def PyVal.isNumber : PyVal → Bool
  | PyVal.int _ => true
  | PyVal.float _ _ => true
  | _ => false

/-- The rational value of a numeric PyVal. -/
def pyNumVal : PyVal → Option ℚ
  | PyVal.int n => Option.some (n : ℚ)
  | PyVal.float m e => Option.some ((m : ℚ) * (10 : ℚ) ^ e)
  | _ => Option.none

/-- The image parts of a messages list, with their pixel bounds. -/
def image_parts {Image : Type} (ms : List (Message Image)) :
    List (Image × Nat × Nat) :=
  ms.flatMap (fun m => m.content.filterMap (fun p =>
    match p with
    | ContentPart.image img mn mx => Option.some (img, mn, mx)
    | _ => Option.none))

/-- Contract of the external generate call: it keeps the batch size and
returns, per element, the prompt followed by at most max_new_tokens
fresh ids. -/
def generate_contract {Token : Type}
    (gen : List (List Token) → Nat → List (List Token)) : Prop :=
  ∀ ids n, (gen ids n).length = ids.length ∧
    ∀ (i : Nat) (h1 : i < (gen ids n).length) (h2 : i < ids.length),
      ∃ fresh, (gen ids n).get ⟨i, h1⟩ = ids.get ⟨i, h2⟩ ++ fresh ∧
        fresh.length ≤ n

/-- A concrete environment whose decoder always yields the given text,
used to exercise the pipeline at specific decoded outputs. -/
def constEnv (s : String) : ModelEnv Unit Unit :=
  { apply_chat_template := fun _ => "",
    process_vision_info := fun _ => ([], []),
    encode := fun _ _ _ => [[]],
    generate := fun ids _ => ids,
    batch_decode := fun _ => [s] }

theorem output_text_constEnv (s : String) (q : String) :
    output_text (constEnv s) () q = s := rfl

theorem constEnv_generate_contract (s : String) :
    generate_contract (constEnv s).generate := by
  intro ids n
  refine ⟨rfl, ?_⟩
  intro i h1 h2
  refine ⟨[], ?_, Nat.zero_le n⟩
  show ids.get ⟨i, h1⟩ = ids.get ⟨i, h2⟩ ++ []
  simp

theorem parse_and_format_eq_of_two (t : String) (a b : PyVal)
    (hp : literal_eval t = Option.some (PyVal.list [a, b])) :
    parse_and_format t = pyStr a ++ ", " ++ pyStr b := by
  unfold parse_and_format
  rw [hp]

theorem parse_and_format_of_reject (t : String)
    (h : ∀ v, literal_eval t = Option.some v → is_two_elem_list v = false) :
    parse_and_format t = t := by
  cases hl : literal_eval t with
  | none => unfold parse_and_format; rw [hl]
  | some v =>
    cases v with
    | int n => unfold parse_and_format; rw [hl]
    | float m e => unfold parse_and_format; rw [hl]
    | str s => unfold parse_and_format; rw [hl]
    | bool b => unfold parse_and_format; rw [hl]
    | none => unfold parse_and_format; rw [hl]
    | tuple xs => unfold parse_and_format; rw [hl]
    | list xs =>
      rcases xs with _ | ⟨x, _ | ⟨y, _ | ⟨z, r⟩⟩⟩
      · unfold parse_and_format; rw [hl]
      · unfold parse_and_format; rw [hl]
      · have hv := h (PyVal.list [x, y]) hl
        simp [is_two_elem_list] at hv
      · unfold parse_and_format; rw [hl]

theorem zipWith_drop_get {α : Type} (ins gens : List (List α)) (i : Nat)
    (h : i < (List.zipWith (fun a b => b.drop a.length) ins gens).length)
    (h2 : i < ins.length) (h3 : i < gens.length) :
    (List.zipWith (fun a b => b.drop a.length) ins gens).get ⟨i, h⟩ =
      (gens.get ⟨i, h3⟩).drop ((ins.get ⟨i, h2⟩).length) := by
  simp [List.get_eq_getElem, List.getElem_zipWith]

/-- C1: for every decoded generated text that is a syntactically valid
two-element numeric list literal, predict returns exactly the string of
the first element, a comma and a space, and the second element; in
particular the text "[0.42, 0.81]" yields "0.42, 0.81". -/
theorem predict_two_numeric_list_formats_pair {Image Token : Type}
    (env : ModelEnv Image Token) (image : Image) (query : String)
    (a b : PyVal)
    (hp : literal_eval (output_text env image query) =
      Option.some (PyVal.list [a, b]))
    (ha : a.isNumber = true) (hb : b.isNumber = true) :
    predict env image query = pyStr a ++ ", " ++ pyStr b ∧
      parse_and_format ("[0.42, 0.81]") = "0.42, 0.81" :=
  ⟨parse_and_format_eq_of_two _ a b hp, rfl⟩

theorem predict_two_numeric_list_formats_pair_witness :
    predict (constEnv ("[0.42, 0.81]")) () "" = "0.42, 0.81" ∧
      parse_and_format ("[0.42, 0.81]") = "0.42, 0.81" := by
  have h := predict_two_numeric_list_formats_pair (constEnv ("[0.42, 0.81]"))
    () "" (PyVal.float 42 (-2)) (PyVal.float 81 (-2)) (by rfl) (by rfl) (by rfl)
  exact ⟨h.1.trans (by rfl), h.2⟩

/-- C2: for every decoded generated text that fails to parse as a
literal, or parses to a value that is not a list of length two, predict
returns the decoded text unmodified; in particular "[0.1, 0.2, 0.3]" and
"click here" come back unchanged. -/
theorem predict_reject_returns_raw_text {Image Token : Type}
    (env : ModelEnv Image Token) (image : Image) (query : String)
    (h : ∀ v, literal_eval (output_text env image query) = Option.some v →
      is_two_elem_list v = false) :
    predict env image query = output_text env image query ∧
      parse_and_format ("[0.1, 0.2, 0.3]") = "[0.1, 0.2, 0.3]" ∧
      parse_and_format ("click here") = "click here" :=
  ⟨parse_and_format_of_reject _ h, rfl, rfl⟩

theorem predict_reject_returns_raw_text_witness :
    predict (constEnv ("click here")) () "" = "click here" ∧
      parse_and_format ("[0.1, 0.2, 0.3]") = "[0.1, 0.2, 0.3]" := by
  have h := predict_reject_returns_raw_text (constEnv ("click here")) () ""
    (fun v hv => Option.noConfusion hv)
  exact ⟨h.1, h.2.1⟩

/-- C3 counterexample: the numeric tokens are not carried into the output
verbatim. The generated text "[0.10, 0.2]" is a valid two-element numeric
list literal, yet predict formats the parsed float values with str, so
the output is "0.1, 0.2" and not the verbatim "0.10, 0.2". -/
theorem format_not_verbatim_cex :
    parse_and_format ("[0.10, 0.2]") = "0.1, 0.2" ∧
      ¬ parse_and_format ("[0.10, 0.2]") = "0.10, 0.2" :=
  ⟨rfl, by decide⟩

/-- C3 amended: when parsing succeeds on a two-element numeric list
literal, the returned string is built by applying Python str to the two
parsed values, so the numeric values are preserved but the surface
spelling is canonicalized; a token already in canonical form, such as
each of "[0.1, 0.2]", is preserved unchanged. -/
theorem predict_formats_str_of_parsed_values {Image Token : Type}
    (env : ModelEnv Image Token) (image : Image) (query : String)
    (a b : PyVal)
    (hp : literal_eval (output_text env image query) =
      Option.some (PyVal.list [a, b]))
    (ha : a.isNumber = true) (hb : b.isNumber = true) :
    predict env image query = pyStr a ++ ", " ++ pyStr b ∧
      parse_and_format ("[0.1, 0.2]") = "0.1, 0.2" :=
  ⟨parse_and_format_eq_of_two _ a b hp, rfl⟩

theorem predict_formats_str_of_parsed_values_witness :
    predict (constEnv ("[0.1, 0.2]")) () "" = "0.1, 0.2" ∧
      parse_and_format ("[0.1, 0.2]") = "0.1, 0.2" := by
  have h := predict_formats_str_of_parsed_values (constEnv ("[0.1, 0.2]"))
    () "" (PyVal.float 1 (-1)) (PyVal.float 2 (-1)) (by rfl) (by rfl) (by rfl)
  exact ⟨h.1.trans (by rfl), h.2⟩

/-- C4 counterexample: the acceptance check is isinstance list, not any
two-element sequence. The text "(0.1, 0.2)" parses to a two-element
tuple, yet predict returns the raw text "(0.1, 0.2)" instead of the
formatted "0.1, 0.2". -/
theorem tuple_rejected_cex :
    literal_eval ("(0.1, 0.2)") =
      Option.some (PyVal.tuple [PyVal.float 1 (-1), PyVal.float 2 (-1)]) ∧
      parse_and_format ("(0.1, 0.2)") = "(0.1, 0.2)" ∧
      ¬ parse_and_format ("(0.1, 0.2)") = "0.1, 0.2" :=
  ⟨rfl, rfl, by decide⟩

/-- C4 amended: the handler accepts a parse result if and only if it is
a two-element list: a parsed two-element list is formatted, while any
parsed value that is not a two-element list, tuples included, and any
parse failure fall back to the raw decoded text. -/
theorem predict_accepts_only_lists {Image Token : Type}
    (env : ModelEnv Image Token) (image : Image) (query : String) :
    (∀ a b, literal_eval (output_text env image query) =
        Option.some (PyVal.list [a, b]) →
      predict env image query = pyStr a ++ ", " ++ pyStr b) ∧
    (∀ v, literal_eval (output_text env image query) = Option.some v →
      is_two_elem_list v = false →
      predict env image query = output_text env image query) ∧
    (literal_eval (output_text env image query) = Option.none →
      predict env image query = output_text env image query) := by
  refine ⟨fun a b hp => parse_and_format_eq_of_two _ a b hp, ?_, ?_⟩
  · intro v hv hfalse
    refine parse_and_format_of_reject _ (fun w hw => ?_)
    have e := hv.symm.trans hw
    injection e with e2
    exact e2 ▸ hfalse
  · intro hn
    refine parse_and_format_of_reject _ (fun w hw => ?_)
    exact absurd (hn.symm.trans hw) (by simp)

theorem predict_accepts_only_lists_witness :
    predict (constEnv ("(0.1, 0.2)")) () "" = "(0.1, 0.2)" := by
  have h := predict_accepts_only_lists (constEnv ("(0.1, 0.2)")) () ""
  exact h.2.1 (PyVal.tuple [PyVal.float 1 (-1), PyVal.float 2 (-1)]) rfl rfl

/-- C5: the parse-and-format step of predict is total and never
propagates a parse failure: for every environment and request it either
returns the formatted pair of a parsed two-element list or returns the
decoded text itself. -/
theorem predict_parse_step_total_two_shapes {Image Token : Type}
    (env : ModelEnv Image Token) (image : Image) (query : String) :
    (∃ a b, literal_eval (output_text env image query) =
        Option.some (PyVal.list [a, b]) ∧
      predict env image query = pyStr a ++ ", " ++ pyStr b) ∨
      predict env image query = output_text env image query := by
  cases hl : literal_eval (output_text env image query) with
  | none =>
    exact Or.inr (parse_and_format_of_reject _
      (fun w hw => absurd (hl.symm.trans hw) (by simp)))
  | some v =>
    cases hv : is_two_elem_list v with
    | false =>
      refine Or.inr (parse_and_format_of_reject _ (fun w hw => ?_))
      have e := hl.symm.trans hw
      injection e with e2
      exact e2 ▸ hv
    | true =>
      have hshape : ∃ a b, v = PyVal.list [a, b] := by
        cases v with
        | int n => simp [is_two_elem_list] at hv
        | float m e => simp [is_two_elem_list] at hv
        | str s => simp [is_two_elem_list] at hv
        | bool b => simp [is_two_elem_list] at hv
        | none => simp [is_two_elem_list] at hv
        | tuple xs => simp [is_two_elem_list] at hv
        | list xs =>
          rcases xs with _ | ⟨x, _ | ⟨y, _ | ⟨z, r⟩⟩⟩
          · simp [is_two_elem_list] at hv
          · simp [is_two_elem_list] at hv
          · exact ⟨x, y, rfl⟩
          · simp [is_two_elem_list] at hv
      obtain ⟨a, b, rfl⟩ := hshape
      exact Or.inl ⟨a, b, rfl, parse_and_format_eq_of_two _ a b hl⟩

/-- C6: the parsed coordinate result is validated only for shape, never
for range: a two-element list literal whose first value lies outside the
interval from 0 to 1 is still accepted and formatted; in particular
"[3, -7]" yields "3, -7" and is neither rejected nor clamped. -/
theorem predict_ignores_coordinate_range {Image Token : Type}
    (env : ModelEnv Image Token) (image : Image) (query : String)
    (a b : PyVal) (x : ℚ)
    (hp : literal_eval (output_text env image query) =
      Option.some (PyVal.list [a, b]))
    (hx : pyNumVal a = Option.some x)
    (hout : x < 0 ∨ 1 < x) :
    predict env image query = pyStr a ++ ", " ++ pyStr b ∧
      parse_and_format ("[3, -7]") = "3, -7" :=
  ⟨parse_and_format_eq_of_two _ a b hp, rfl⟩

theorem predict_ignores_coordinate_range_witness :
    predict (constEnv ("[3, -7]")) () "" = "3, -7" ∧
      parse_and_format ("[3, -7]") = "3, -7" := by
  have h := predict_ignores_coordinate_range (constEnv ("[3, -7]")) () ""
    (PyVal.int 3) (PyVal.int (-7)) 3 (by rfl) (by rfl) (Or.inr (by norm_num))
  exact ⟨h.1.trans (by rfl), h.2⟩

/-- C10: the acceptance check does not require numeric elements: every
decoded text parsing to a two-element list of any element types is
accepted and formatted with str of each element; in particular a list of
the two strings a and b yields "a, b" rather than the raw text. -/
theorem predict_accepts_any_element_types {Image Token : Type}
    (env : ModelEnv Image Token) (image : Image) (query : String)
    (a b : PyVal)
    (hp : literal_eval (output_text env image query) =
      Option.some (PyVal.list [a, b])) :
    predict env image query = pyStr a ++ ", " ++ pyStr b ∧
      parse_and_format ("[\x27a\x27, \x27b\x27]") = "a, b" :=
  ⟨parse_and_format_eq_of_two _ a b hp, rfl⟩

theorem predict_accepts_any_element_types_witness :
    predict (constEnv ("[\x27a\x27, \x27b\x27]")) () "" = "a, b" := by
  have h := predict_accepts_any_element_types
    (constEnv ("[\x27a\x27, \x27b\x27]")) () ""
    (PyVal.str ("a")) (PyVal.str ("b")) (by rfl)
  exact h.1.trans (by rfl)

/-- C7: for every request, whatever the image and the query, the image
part of the assembled message carries exactly the fixed pixel-area
bounds 256 * 28 * 28 and 1344 * 28 * 28. -/
theorem make_messages_fixed_pixel_bounds {Image : Type}
    (image : Image) (query : String) :
    image_parts (make_messages image query) =
      [(image, 256 * 28 * 28, 1344 * 28 * 28)] ∧
      MIN_PIXELS = 256 * 28 * 28 ∧ MAX_PIXELS = 1344 * 28 * 28 :=
  ⟨rfl, rfl, rfl⟩

/-- C8: predict performs its one generation pass with a maximum
new-token budget of 128, and therefore, for any generate implementation
satisfying the echo-prefix contract, every trimmed batch element holds
at most 128 newly generated ids. -/
theorem generate_called_once_budget_128 {Image Token : Type}
    (env : ModelEnv Image Token) (hg : generate_contract env.generate)
    (image : Image) (query : String) :
    generated_ids env image query =
      env.generate (input_ids env image query) 128 ∧
      ∀ (i : Nat) (h : i < (generated_ids_trimmed env image query).length),
        ((generated_ids_trimmed env image query).get ⟨i, h⟩).length ≤ 128 := by
  refine ⟨rfl, ?_⟩
  intro i h
  have hmin : i < min (input_ids env image query).length
      (generated_ids env image query).length := by
    simpa [generated_ids_trimmed] using h
  obtain ⟨h2, h3⟩ := lt_min_iff.mp hmin
  obtain ⟨fresh, hf, hfl⟩ := (hg (input_ids env image query) 128).2 i h3 h2
  have hget := zipWith_drop_get (input_ids env image query)
    (generated_ids env image query) i h h2 h3
  have hfresh : (generated_ids_trimmed env image query).get ⟨i, h⟩ = fresh := by
    rw [show (generated_ids_trimmed env image query).get ⟨i, h⟩ =
      ((generated_ids env image query).get ⟨i, h3⟩).drop
        ((input_ids env image query).get ⟨i, h2⟩).length from hget]
    rw [show (generated_ids env image query).get ⟨i, h3⟩ =
      (input_ids env image query).get ⟨i, h2⟩ ++ fresh from hf]
    exact List.drop_left _ _
  rw [hfresh]
  exact hfl

theorem generate_called_once_budget_128_witness :
    generated_ids (constEnv ("x")) () "" =
      (constEnv ("x")).generate (input_ids (constEnv ("x")) () "") 128 ∧
      ((generated_ids_trimmed (constEnv ("x")) () "").get
        ⟨0, by decide⟩).length ≤ 128 := by
  have h := generate_called_once_budget_128 (constEnv ("x"))
    (constEnv_generate_contract ("x")) () ""
  exact ⟨h.1, h.2 0 (by decide)⟩

/-- C9: for every batch element, the sequence passed to decoding equals
the generated sequence of that element with its first input-length ids
removed. -/
theorem trimmed_element_drops_prompt {Image Token : Type}
    (env : ModelEnv Image Token) (image : Image) (query : String) (i : Nat)
    (h : i < (generated_ids_trimmed env image query).length)
    (h2 : i < (input_ids env image query).length)
    (h3 : i < (generated_ids env image query).length) :
    (generated_ids_trimmed env image query).get ⟨i, h⟩ =
      ((generated_ids env image query).get ⟨i, h3⟩).drop
        ((input_ids env image query).get ⟨i, h2⟩).length :=
  zipWith_drop_get _ _ i h h2 h3

theorem trimmed_element_drops_prompt_witness :
    (generated_ids_trimmed (constEnv ("y")) () "").get ⟨0, by decide⟩ =
      ((generated_ids (constEnv ("y")) () "").get ⟨0, by decide⟩).drop
        ((input_ids (constEnv ("y")) () "").get ⟨0, by decide⟩).length :=
  trimmed_element_drops_prompt (constEnv ("y")) () "" 0
    (by decide) (by decide) (by decide)
